import Mathlib

/-!
Verification development for the entity-research pipeline in `src/app.py`.

The program is a linear pipeline: for each entity string, a web search is
performed (`WebSearcher.search`), and when the search text is non-empty, a
language-model extraction call is made (`LLMProcessor.extract_information`);
`DataProcessor.process_entities` assembles one record per entity.

Shallow embedding conventions:
* Python exceptions are modelled with `Except PyError`; an `Except.error`
  value means the Python call raises and the exception propagates to the
  caller, while caught exceptions never surface as `Except.error`.
* The external world (the SerpAPI HTTP endpoint and the Groq completion
  endpoint) is modelled by an `Env` of response oracles; each outbound
  request a call issues is recorded in a trace of `ExtCall` values.
* `prompt.format(entity=entity)` is modelled by `pyFormat`, a character
  state machine mirroring CPython template parsing for the keyword
  argument `entity`: brace escapes, `KeyError` for unknown field names,
  `IndexError` for positional fields, `ValueError` for unmatched braces.
  Conversion and format-spec suffixes (such as a `!r` or `:>10` inside a
  replacement field) are outside the modelled template language and are
  treated as field-name lookups.
-/

set_option autoImplicit false

deriving instance DecidableEq for Except

/-- The opening curly-brace character, written via its code point. -/
def lbrace : Char := Char.ofNat 123

/-- The closing curly-brace character, written via its code point. -/
def rbrace : Char := Char.ofNat 125

/-- The Python exceptions that the modelled code can raise uncaught:
`str.format` raises `KeyError` for an unknown field name, `IndexError`
for a positional replacement field with no positional argument, and
`ValueError` for malformed brace syntax. -/
inductive PyError where
  | keyError (field : String)
  | indexError
  | valueError
  deriving DecidableEq

/-- One token of a parsed prompt template: a literal character or the
`entity` replacement field. -/
inductive Tok where
  | lit (c : Char)
  | field
  deriving DecidableEq

/-- Interpretation of a replacement-field name, as in
`"...".format(entity=...)`: an all-digit (or empty) name is a positional
reference and raises `IndexError` since no positional arguments are
supplied; the name `entity` is the one keyword argument; any other name
raises `KeyError`. -/
def interpField (fname : List Char) : Except PyError Tok :=
  if fname.all Char.isDigit then .error .indexError
  else if fname = "entity".data then .ok Tok.field
  else .error (.keyError (String.mk fname))

/-- Parser state for the `str.format` template scanner. -/
inductive FmtState where
  | normal
  | sawL
  | sawR
  | inField (acc : List Char)
  deriving DecidableEq

/-- Character state machine for CPython `str.format` template parsing:
`\x7b\x7b` and `\x7d\x7d` are literal-brace escapes, `\x7b...\x7d`
delimits a replacement field, a single unmatched brace raises
`ValueError`. -/
def parseFmtAux : FmtState → List Char → Except PyError (List Tok)
  | .normal, [] => .ok []
  | .sawL, [] => .error .valueError
  | .sawR, [] => .error .valueError
  | .inField _, [] => .error .valueError
  | .normal, c :: rest =>
    if c = lbrace then parseFmtAux .sawL rest
    else if c = rbrace then parseFmtAux .sawR rest
    else (fun ts => Tok.lit c :: ts) <$> parseFmtAux .normal rest
  | .sawL, c :: rest =>
    if c = lbrace then (fun ts => Tok.lit lbrace :: ts) <$> parseFmtAux .normal rest
    else if c = rbrace then
      match interpField [] with
      | .error e => .error e
      | .ok t => (fun ts => t :: ts) <$> parseFmtAux .normal rest
    else parseFmtAux (.inField [c]) rest
  | .sawR, c :: rest =>
    if c = rbrace then (fun ts => Tok.lit rbrace :: ts) <$> parseFmtAux .normal rest
    else .error .valueError
  | .inField acc, c :: rest =>
    if c = rbrace then
      match interpField acc.reverse with
      | .error e => .error e
      | .ok t => (fun ts => t :: ts) <$> parseFmtAux .normal rest
    else if c = lbrace then .error .valueError
    else parseFmtAux (.inField (c :: acc)) rest

/-- Parses a whole template. -/
def parseFmt (template : List Char) : Except PyError (List Tok) :=
  parseFmtAux .normal template

/-- Renders a parsed template, substituting the entity for each
replacement field. -/
def render (entity : List Char) : List Tok → List Char
  | [] => []
  | Tok.lit c :: ts => c :: render entity ts
  | Tok.field :: ts => entity ++ render entity ts

/-- Model of the Python expression `template.format(entity=entity)`. -/
def pyFormat (template entity : String) : Except PyError String :=
  (parseFmt template.data).map fun ts => String.mk (render entity.data ts)

/-- A SerpAPI search request: the `params` dict of `requests.get`, with
query `q`, the API key, and the fixed result-count limit `num`. -/
structure SearchRequest where
  q : String
  api_key : String
  num : Nat
  deriving DecidableEq

/-- One chat message of the completion request. -/
structure Message where
  role : String
  content : String
  deriving DecidableEq

/-- A Groq chat-completion request with its fixed parameters. -/
structure LLMRequest where
  model : String
  messages : List Message
  max_tokens : Nat
  temperature : ℚ
  deriving DecidableEq

/-- An outbound network call recorded in the trace. -/
inductive ExtCall where
  | searchCall (req : SearchRequest)
  | llmCall (req : LLMRequest)
  deriving DecidableEq

/-- Outcome of the SerpAPI HTTP interaction, as seen by `search` after
`requests.get`, `raise_for_status` and `response.json()`: `failure` is any
`requests.exceptions.RequestException` (connection error, HTTP error
status, JSON decode error); `success` carries the `organic_results` list,
each element an optional `snippet` string (`none` when the result dict has
no snippet field). -/
inductive SearchOutcome where
  | failure
  | success (organic_results : List (Option String))

/-- Outcome of the Groq completion call: `failure` is any exception inside
the `try` block (network or API error, or a malformed response when
reading `choices[0].message.content`); `success` carries the content text
of the first choice. -/
inductive LLMOutcome where
  | failure
  | success (content : String)

/-- The ambient state: the configured SerpAPI key and the responses of the
two external services, as functions of the issued request. -/
structure Env where
  serpapi_key : String
  searchOracle : SearchRequest → SearchOutcome
  llmOracle : LLMRequest → LLMOutcome

/-- One output record of `process_entities`: the Python dict with keys
`Entity` and `Extracted Information`. -/
structure ResultRecord where
  Entity : String
  ExtractedInformation : String
  deriving DecidableEq

/-- The `params` dict built by `WebSearcher.search`: query, API key and
the hard-coded `num = 5`. -/
def searchRequest (q api_key : String) : SearchRequest :=
  ⟨q, api_key, 5⟩

/-- Model of `WebSearcher.search`.  The query is built by
`prompt.format(entity=entity)` inside the `try` block, but the `except`
clause catches only `requests.exceptions.RequestException`, so a
formatting exception propagates.  On a request failure the error is shown
on the sidebar and `""` is returned; on success the snippets (missing
snippet fields defaulting to `""`) are joined with newlines. -/
def WebSearcher.search (env : Env) (entity prompt : String) :
    Except PyError String × List ExtCall :=
  match pyFormat prompt entity with
  | .error e => (.error e, [])
  | .ok q =>
    let req := searchRequest q env.serpapi_key
    match env.searchOracle req with
    | .failure => (.ok "", [.searchCall req])
    | .success results =>
      let snippets := results.map fun r => r.getD ""
      (.ok (String.intercalate "\n" snippets), [.searchCall req])

/-- The fixed system message of the completion request. -/
def systemMessage : Message :=
  ⟨"system", "You are a helpful assistant that extracts specific information from web search results."⟩

/-- The user message of the completion request, embedding the formatted
prompt and the raw search text. -/
def userMessage (formatted search_results : String) : Message :=
  ⟨"user", "Extract information from the following search results based on the prompt: \x27" ++
    formatted ++ "\x27\n\nSearch Results:\n" ++ search_results ++ "\n\nExtracted Information:"⟩

/-- The completion request built by `extract_information`, with the
hard-coded model identifier, `max_tokens = 150` and `temperature = 0.5`. -/
def llmRequest (formatted search_results : String) : LLMRequest :=
  ⟨"mixtral-8x7b-32768", [systemMessage, userMessage formatted search_results], 150, 0.5⟩

/-- Model of `LLMProcessor.extract_information`.  The messages list — and
with it `prompt.format(entity=entity)` — is built before the `try` block,
so a formatting exception propagates.  Inside the `try`, any exception is
caught (shown on the sidebar) and `""` is returned; on success the content
of the first choice is returned stripped of surrounding whitespace. -/
def LLMProcessor.extract_information (env : Env) (entity prompt search_results : String) :
    Except PyError String × List ExtCall :=
  match pyFormat prompt entity with
  | .error e => (.error e, [])
  | .ok formatted =>
    let req := llmRequest formatted search_results
    match env.llmOracle req with
    | .failure => (.ok "", [.llmCall req])
    | .success content => (.ok content.trim, [.llmCall req])

/-- One iteration of the `process_entities` loop body: search, then either
the `"No data found"` record (empty search text) or an extraction call. -/
def DataProcessor.processEntity (env : Env) (prompt entity : String) :
    Except PyError ResultRecord × List ExtCall :=
  match WebSearcher.search env entity prompt with
  | (.error e, tr) => (.error e, tr)
  | (.ok search_results, tr) =>
    if search_results = "" then
      (.ok ⟨entity, "No data found"⟩, tr)
    else
      match LLMProcessor.extract_information env entity prompt search_results with
      | (.error e, tr2) => (.error e, tr ++ tr2)
      | (.ok extracted_info, tr2) => (.ok ⟨entity, extracted_info⟩, tr ++ tr2)

/-- Model of `DataProcessor.process_entities`: the sequential loop over
the entities.  An uncaught exception anywhere aborts the whole call — the
partially built `results` list is lost — while the already issued network
calls remain in the trace. -/
def DataProcessor.process_entities (env : Env) (entities : List String) (prompt : String) :
    Except PyError (List ResultRecord) × List ExtCall :=
  match entities with
  | [] => (.ok [], [])
  | entity :: rest =>
    match DataProcessor.processEntity env prompt entity with
    | (.error e, tr) => (.error e, tr)
    | (.ok r, tr) =>
      match DataProcessor.process_entities env rest prompt with
      | (.error e, tr2) => (.error e, tr ++ tr2)
      | (.ok rs, tr2) => (.ok (r :: rs), tr ++ tr2)

/-- The per-entity trace of loop-body network calls. -/
def entityTrace (env : Env) (prompt entity : String) : List ExtCall :=
  (DataProcessor.processEntity env prompt entity).2

/-- The per-entity record produced by a non-raising loop body. -/
def entityRecord (env : Env) (prompt entity : String) : ResultRecord :=
  match (DataProcessor.processEntity env prompt entity).1 with
  | .ok r => r
  | .error _ => ⟨entity, ""⟩

/-- Number of completion calls in a trace. -/
def llmCallCount (tr : List ExtCall) : Nat :=
  tr.countP fun c => match c with | .llmCall _ => true | _ => false

/-- Number of search calls in a trace. -/
def searchCallCount (tr : List ExtCall) : Nat :=
  tr.countP fun c => match c with | .searchCall _ => true | _ => false

/-- An environment in which both external services fail. -/
def envTriv : Env :=
  ⟨"", fun _ => .failure, fun _ => .failure⟩

/-! ### Infrastructure lemmas -/

/-- Whether formatting succeeds depends only on the template, never on the
entity value substituted in. -/
theorem pyFormat_isOk_indep (p e f : String) : (pyFormat p e).isOk = (pyFormat p f).isOk := by
  unfold pyFormat
  cases parseFmt p.data <;> rfl

/-- A successful format run yields some formatted string. -/
theorem pyFormat_ok_of_isOk {p e : String} (h : (pyFormat p e).isOk) :
    ∃ q, pyFormat p e = Except.ok q := by
  cases hf : pyFormat p e with
  | error err => rw [hf] at h; exact absurd h (by simp [Except.isOk, Except.toBool])
  | ok q => exact ⟨q, rfl⟩

/-- Unfolding of `search` when formatting succeeds and the HTTP interaction
fails: the error is reported and the empty string returned. -/
theorem search_eq_failure (env : Env) (e p q : String)
    (hq : pyFormat p e = Except.ok q)
    (ho : env.searchOracle (searchRequest q env.serpapi_key) = SearchOutcome.failure) :
    WebSearcher.search env e p =
      (Except.ok "", [ExtCall.searchCall (searchRequest q env.serpapi_key)]) := by
  unfold WebSearcher.search
  rw [hq]
  simp [ho]

/-- Unfolding of `search` when formatting succeeds and the HTTP interaction
succeeds: the snippets are joined with newlines. -/
theorem search_eq_success (env : Env) (e p q : String) (results : List (Option String))
    (hq : pyFormat p e = Except.ok q)
    (ho : env.searchOracle (searchRequest q env.serpapi_key) = SearchOutcome.success results) :
    WebSearcher.search env e p =
      (Except.ok (String.intercalate "\n" (results.map fun r => r.getD "")),
       [ExtCall.searchCall (searchRequest q env.serpapi_key)]) := by
  unfold WebSearcher.search
  rw [hq]
  simp [ho]

/-- When formatting succeeds, `search` never raises. -/
theorem search_isOk (env : Env) (e p q : String) (hq : pyFormat p e = Except.ok q) :
    ∃ sr, (WebSearcher.search env e p).1 = Except.ok sr := by
  cases ho : env.searchOracle (searchRequest q env.serpapi_key) with
  | failure => rw [search_eq_failure env e p q hq ho]; exact ⟨"", rfl⟩
  | success results => rw [search_eq_success env e p q results hq ho]; exact ⟨_, rfl⟩

/-- When formatting succeeds, `search` issues exactly one GET request with
the substituted query, the configured key, and `num = 5`. -/
theorem search_trace (env : Env) (e p q : String) (hq : pyFormat p e = Except.ok q) :
    (WebSearcher.search env e p).2 = [ExtCall.searchCall (searchRequest q env.serpapi_key)] := by
  cases ho : env.searchOracle (searchRequest q env.serpapi_key) with
  | failure => rw [search_eq_failure env e p q hq ho]
  | success results => rw [search_eq_success env e p q results hq ho]

/-- If `search` returns a value, the template formats. -/
theorem format_isOk_of_search_ok (env : Env) (e p sr : String)
    (h : (WebSearcher.search env e p).1 = Except.ok sr) : (pyFormat p e).isOk := by
  cases hf : pyFormat p e with
  | error err =>
    unfold WebSearcher.search at h
    rw [hf] at h
    exact absurd h (by simp)
  | ok q => simp [hf, Except.isOk, Except.toBool]

/-- Unfolding of `extract_information` when the completion call fails:
the error is reported and the empty string returned. -/
theorem extract_eq_failure (env : Env) (e p sr q : String)
    (hq : pyFormat p e = Except.ok q)
    (ho : env.llmOracle (llmRequest q sr) = LLMOutcome.failure) :
    LLMProcessor.extract_information env e p sr =
      (Except.ok "", [ExtCall.llmCall (llmRequest q sr)]) := by
  unfold LLMProcessor.extract_information
  rw [hq]
  simp [ho]

/-- Unfolding of `extract_information` when the completion call succeeds:
the content of the first choice is returned trimmed. -/
theorem extract_eq_success (env : Env) (e p sr q content : String)
    (hq : pyFormat p e = Except.ok q)
    (ho : env.llmOracle (llmRequest q sr) = LLMOutcome.success content) :
    LLMProcessor.extract_information env e p sr =
      (Except.ok content.trim, [ExtCall.llmCall (llmRequest q sr)]) := by
  unfold LLMProcessor.extract_information
  rw [hq]
  simp [ho]

/-- Empty search text takes the `"No data found"` branch of the loop body. -/
theorem processEntity_of_search_empty (env : Env) (p e : String) (tr : List ExtCall)
    (h : WebSearcher.search env e p = (Except.ok "", tr)) :
    DataProcessor.processEntity env p e = (Except.ok ⟨e, "No data found"⟩, tr) := by
  simp [DataProcessor.processEntity, h]

/-- Non-empty search text takes the extraction branch of the loop body. -/
theorem processEntity_of_search_nonempty (env : Env) (p e sr : String) (tr : List ExtCall)
    (h : WebSearcher.search env e p = (Except.ok sr, tr)) (hne : sr ≠ "") :
    DataProcessor.processEntity env p e =
      (match LLMProcessor.extract_information env e p sr with
       | (.error err, tr2) => (.error err, tr ++ tr2)
       | (.ok info, tr2) => (.ok ⟨e, info⟩, tr ++ tr2)) := by
  simp [DataProcessor.processEntity, h, hne]

/-- When the template formats, the loop body never raises. -/
theorem processEntity_isOk (env : Env) (p e : String) (h : (pyFormat p e).isOk) :
    ((DataProcessor.processEntity env p e).1).isOk := by
  obtain ⟨q, hq⟩ := pyFormat_ok_of_isOk h
  obtain ⟨sr, hsr⟩ := search_isOk env e p q hq
  rcases hs : WebSearcher.search env e p with ⟨v, tr⟩
  rw [hs] at hsr
  simp at hsr
  subst hsr
  by_cases hne : sr = ""
  · subst hne
    rw [processEntity_of_search_empty env p e tr hs]
    rfl
  · rw [processEntity_of_search_nonempty env p e sr tr hs hne]
    cases ho : env.llmOracle (llmRequest q sr) with
    | failure => rw [extract_eq_failure env e p sr q hq ho]; rfl
    | success content => rw [extract_eq_success env e p sr q content hq ho]; rfl

/-- Every record the loop body produces carries its own entity. -/
theorem processEntity_ok_Entity (env : Env) (p e : String) (r : ResultRecord)
    (h : (DataProcessor.processEntity env p e).1 = Except.ok r) : r.Entity = e := by
  cases hf : pyFormat p e with
  | error err =>
    have hpe : DataProcessor.processEntity env p e = (Except.error err, []) := by
      simp [DataProcessor.processEntity, WebSearcher.search, hf]
    rw [hpe] at h
    exact absurd h (by simp)
  | ok q =>
    obtain ⟨sr, hsr⟩ := search_isOk env e p q hf
    rcases hs : WebSearcher.search env e p with ⟨v, tr⟩
    rw [hs] at hsr
    simp at hsr
    subst hsr
    by_cases hne : sr = ""
    · subst hne
      rw [processEntity_of_search_empty env p e tr hs] at h
      simp at h
      rw [← h]
    · rw [processEntity_of_search_nonempty env p e sr tr hs hne] at h
      cases ho : env.llmOracle (llmRequest q sr) with
      | failure =>
        rw [extract_eq_failure env e p sr q hf ho] at h
        simp at h
        rw [← h]
      | success content =>
        rw [extract_eq_success env e p sr q content hf ho] at h
        simp at h
        rw [← h]

/-- The `entityRecord` helper always carries its own entity. -/
theorem entityRecord_Entity (env : Env) (p e : String) : (entityRecord env p e).Entity = e := by
  unfold entityRecord
  cases hp : (DataProcessor.processEntity env p e).1 with
  | error err => rfl
  | ok r => exact processEntity_ok_Entity env p e r hp

/-- Characterization of the whole loop when no iteration raises: one record
per entity in order, and the trace is the concatenation of the per-entity
traces. -/
theorem process_entities_eq (env : Env) (p : String) (es : List String)
    (h : ∀ e ∈ es, ((DataProcessor.processEntity env p e).1).isOk) :
    DataProcessor.process_entities env es p =
      (Except.ok (es.map (entityRecord env p)), (es.map (entityTrace env p)).flatten) := by
  induction es with
  | nil => rfl
  | cons e rest ih =>
    have he : ((DataProcessor.processEntity env p e).1).isOk := h e (by simp)
    have hrest : ∀ x ∈ rest, ((DataProcessor.processEntity env p x).1).isOk :=
      fun x hx => h x (by simp [hx])
    rcases hp : DataProcessor.processEntity env p e with ⟨v, tr⟩
    cases v with
    | error err =>
      rw [hp] at he
      exact absurd he (by simp [Except.isOk, Except.toBool])
    | ok r =>
      unfold DataProcessor.process_entities
      rw [hp, ih hrest]
      simp [entityRecord, entityTrace, hp]

/-- The two possible per-entity traces: the search call alone, or the search
call followed by the completion call on the search text. -/
theorem entityTrace_structure (env : Env) (p e q : String)
    (hq : pyFormat p e = Except.ok q) :
    entityTrace env p e = [ExtCall.searchCall (searchRequest q env.serpapi_key)] ∨
    ∃ sr, (WebSearcher.search env e p).1 = Except.ok sr ∧ sr ≠ "" ∧
      entityTrace env p e =
        [ExtCall.searchCall (searchRequest q env.serpapi_key),
         ExtCall.llmCall (llmRequest q sr)] := by
  cases ho : env.searchOracle (searchRequest q env.serpapi_key) with
  | failure =>
    left
    have hs := search_eq_failure env e p q hq ho
    rw [entityTrace, processEntity_of_search_empty env p e _ hs]
  | success results =>
    by_cases hne : String.intercalate "\n" (results.map fun r => r.getD "") = ""
    · left
      have hs := search_eq_success env e p q results hq ho
      rw [hne] at hs
      rw [entityTrace, processEntity_of_search_empty env p e _ hs]
    · right
      have hs := search_eq_success env e p q results hq ho
      refine ⟨_, by rw [hs], hne, ?_⟩
      rw [entityTrace, processEntity_of_search_nonempty env p e _ _ hs hne]
      cases hl : env.llmOracle
          (llmRequest q (String.intercalate "\n" (results.map fun r => r.getD ""))) with
      | failure => rw [extract_eq_failure env e p _ q hq hl]; rfl
      | success content => rw [extract_eq_success env e p _ q content hq hl]; rfl

/-- Accumulator form of joining copies of the empty string with newlines. -/
theorem intercalate_go_replicate (k : Nat) (acc : String) :
    String.intercalate.go acc "\n" (List.replicate k "") =
      acc ++ String.mk (List.replicate k (Char.ofNat 10)) := by
  induction k generalizing acc with
  | zero =>
    apply String.ext
    simp [String.intercalate.go]
  | succ k ih =>
    rw [List.replicate_succ, String.intercalate.go, ih]
    apply String.ext
    simp [List.replicate_succ]

/-- Newline-joining `n` empty snippet strings yields `n - 1` newline
characters. -/
theorem intercalate_replicate_empty (n : Nat) (h : 1 ≤ n) :
    String.intercalate "\n" (List.replicate n "") =
      String.mk (List.replicate (n - 1) (Char.ofNat 10)) := by
  obtain ⟨k, rfl⟩ : ∃ k, n = k + 1 := ⟨n - 1, by omega⟩
  rw [List.replicate_succ, String.intercalate, intercalate_go_replicate]
  apply String.ext
  simp

/-- A brace-free template parses into its own characters as literals. -/
theorem parseFmt_no_brace (l : List Char) (h : ∀ c ∈ l, c ≠ lbrace ∧ c ≠ rbrace) :
    parseFmtAux FmtState.normal l = Except.ok (l.map Tok.lit) := by
  induction l with
  | nil => rfl
  | cons c rest ih =>
    obtain ⟨h1, h2⟩ := h c (by simp)
    have := ih fun x hx => h x (by simp [hx])
    simp [parseFmtAux, h1, h2, this, Except.map]

/-- Rendering a literal-only token list is the identity. -/
theorem render_lits (e : List Char) (l : List Char) : render e (l.map Tok.lit) = l := by
  induction l with
  | nil => rfl
  | cons c rest ih => simp [render, ih]

/-- Formatting a brace-free template is a no-op for every entity. -/
theorem pyFormat_no_brace (template entity : String)
    (h : ∀ c ∈ template.data, c ≠ lbrace ∧ c ≠ rbrace) :
    pyFormat template entity = Except.ok template := by
  unfold pyFormat parseFmt
  rw [parseFmt_no_brace template.data h]
  simp [Except.map, render_lits]

/-! ### Claim theorems -/

/-- Claim C1, as stated, is false: with the entity list `["a"]` and the
prompt template `\x7bx\x7d`, the very first search raises `KeyError`
(only `RequestException` is caught), so `process_entities` raises instead
of returning a one-element list. -/
theorem C1_counterexample :
    (DataProcessor.process_entities envTriv ["a"] "\x7bx\x7d").1 =
      Except.error (PyError.keyError "x") ∧
    ¬ ∃ rs : List ResultRecord,
        (DataProcessor.process_entities envTriv ["a"] "\x7bx\x7d").1 = Except.ok rs := by
  refine ⟨by decide, ?_⟩
  rintro ⟨rs, hrs⟩
  rw [(by decide : (DataProcessor.process_entities envTriv ["a"] "\x7bx\x7d").1 =
      Except.error (PyError.keyError "x"))] at hrs
  exact Except.noConfusion hrs

/-- C1 (amended): for every prompt template whose substitution succeeds,
`process_entities` returns a list of the same length as the input whose
i-th record has Entity field equal to the i-th input entity, order and
multiplicity preserved, regardless of search or extraction failures. -/
theorem C1_theorem (env : Env) (entities : List String) (prompt : String)
    (h : (pyFormat prompt "x").isOk) :
    ∃ rs : List ResultRecord,
      (DataProcessor.process_entities env entities prompt).1 = Except.ok rs ∧
      rs.length = entities.length ∧
      ∀ i : Nat, rs[i]?.map ResultRecord.Entity = entities[i]? := by
  have hok : ∀ e ∈ entities, ((DataProcessor.processEntity env prompt e).1).isOk := by
    intro e _
    exact processEntity_isOk env prompt e (by rw [pyFormat_isOk_indep prompt e "x"]; exact h)
  refine ⟨entities.map (entityRecord env prompt), ?_, by simp, ?_⟩
  · rw [process_entities_eq env prompt entities hok]
  · intro i
    rw [List.getElem?_map]
    cases hv : entities[i]? with
    | none => rfl
    | some e => simp [entityRecord_Entity]

/-- Witness for C1 at a concrete input: the default template of the UI and
two entities, in an environment where every network call fails. -/
theorem C1_witness :
    ((pyFormat "What is the main product or service of \x7bentity\x7d?" "x").isOk = true) ∧
    ∃ rs : List ResultRecord,
      (DataProcessor.process_entities envTriv ["Acme Corp", "Globex"]
        "What is the main product or service of \x7bentity\x7d?").1 = Except.ok rs ∧
      rs.length = (["Acme Corp", "Globex"] : List String).length ∧
      ∀ i : Nat, rs[i]?.map ResultRecord.Entity = (["Acme Corp", "Globex"] : List String)[i]? :=
  ⟨by decide, C1_theorem envTriv ["Acme Corp", "Globex"]
    "What is the main product or service of \x7bentity\x7d?" (by decide)⟩

/-- Environment whose search endpoint answers with the organic results
list of claim C2: a snippet `a`, a result with no snippet field, a
snippet `b`. -/
def envC2 : Env :=
  ⟨"k", fun _ => .success [some "a", none, some "b"], fun _ => .failure⟩

/-- Claim C2, as stated, is false: on organic results
`[\x7bsnippet: a\x7d, \x7b\x7d, \x7bsnippet: b\x7d]` the code joins
`["a", "", "b"]` with newlines, returning `"a\n\nb"`, not `"a\nb"` — a
result without a snippet still contributes an (empty) list entry and with
it a separator. -/
theorem C2_counterexample :
    (WebSearcher.search envC2 "e" "q").1 = Except.ok "a\n\nb" ∧
    (WebSearcher.search envC2 "e" "q").1 ≠ Except.ok "a\nb" := by
  exact ⟨by decide, by decide⟩

/-- C2 (amended): given organic results
`[\x7bsnippet: a\x7d, \x7b\x7d, \x7bsnippet: b\x7d]` in a successful
search response, `search` returns exactly `"a\n\nb"`: a missing snippet
field contributes an empty string which still receives newline
separators. -/
theorem C2_theorem (env : Env) (e p q : String)
    (hq : pyFormat p e = Except.ok q)
    (hs : env.searchOracle (searchRequest q env.serpapi_key) =
      SearchOutcome.success [some "a", none, some "b"]) :
    (WebSearcher.search env e p).1 = Except.ok "a\n\nb" := by
  rw [search_eq_success env e p q [some "a", none, some "b"] hq hs]
  rfl

/-- Witness for C2 at a concrete environment. -/
theorem C2_witness :
    pyFormat "q" "e" = Except.ok "q" ∧
    envC2.searchOracle (searchRequest "q" envC2.serpapi_key) =
      SearchOutcome.success [some "a", none, some "b"] ∧
    (WebSearcher.search envC2 "e" "q").1 = Except.ok "a\n\nb" :=
  ⟨by decide, rfl, C2_theorem envC2 "e" "q" "q" (by decide) rfl⟩

/-- Claim C3, as stated, is false: failures of the query/prompt
construction by template substitution are not caught.  With template
`\x7bunknown\x7d`, `search` raises `KeyError` out of `process_entities`
(its except clause catches only `RequestException`), and
`extract_information` raises the same way because it formats the template
while building its messages, before its try block. -/
theorem C3_counterexample :
    (DataProcessor.process_entities envTriv ["Acme"] "\x7bunknown\x7d").1 =
      Except.error (PyError.keyError "unknown") ∧
    (LLMProcessor.extract_information envTriv "Acme" "\x7bunknown\x7d" "text").1 =
      Except.error (PyError.keyError "unknown") := by
  exact ⟨by decide, by decide⟩

/-- C3 (amended): every failure of the external HTTP search call and of
of the language-model completion call is caught at its boundary and turned
into an empty-string return, so whenever template substitution succeeds no
exception escapes `process_entities`; template-substitution errors,
however, do escape. -/
theorem C3_theorem (env : Env) (entities : List String) (prompt : String)
    (h : (pyFormat prompt "x").isOk) :
    ∃ rs : List ResultRecord,
      (DataProcessor.process_entities env entities prompt).1 = Except.ok rs := by
  have hok : ∀ e ∈ entities, ((DataProcessor.processEntity env prompt e).1).isOk := by
    intro e _
    exact processEntity_isOk env prompt e (by rw [pyFormat_isOk_indep prompt e "x"]; exact h)
  rw [process_entities_eq env prompt entities hok]
  exact ⟨_, rfl⟩

/-- Witness for C3: no exception escapes on a well-formed template even
though every network call fails. -/
theorem C3_witness :
    ((pyFormat "tell me about \x7bentity\x7d" "x").isOk = true) ∧
    ∃ rs : List ResultRecord,
      (DataProcessor.process_entities envTriv ["a", "b"] "tell me about \x7bentity\x7d").1 =
        Except.ok rs :=
  ⟨by decide, C3_theorem envTriv ["a", "b"] "tell me about \x7bentity\x7d" (by decide)⟩

/-- Claim C6, as stated, is false: the template `\x7d` contains no
substitution placeholder, yet `format` raises `ValueError` (single
unmatched brace), so `search` raises instead of issuing the query with the
template text unchanged — no request is made at all. -/
theorem C6_counterexample :
    pyFormat "\x7d" "Acme" = Except.error PyError.valueError ∧
    (WebSearcher.search envTriv "Acme" "\x7d").1 = Except.error PyError.valueError ∧
    (WebSearcher.search envTriv "Acme" "\x7d").2 = [] := by
  exact ⟨by decide, by decide, by decide⟩

/-- C6 (amended): for every template containing no brace character,
substitution is a no-op for every entity: the query `search` sends is the
template itself, and the completion request `extract_information` builds
embeds the template text unchanged. -/
theorem C6_theorem (env : Env) (entity template sr : String)
    (h : ∀ c ∈ template.data, c ≠ lbrace ∧ c ≠ rbrace) :
    pyFormat template entity = Except.ok template ∧
    (WebSearcher.search env entity template).2 =
      [ExtCall.searchCall (searchRequest template env.serpapi_key)] ∧
    (LLMProcessor.extract_information env entity template sr).2 =
      [ExtCall.llmCall (llmRequest template sr)] := by
  have hq := pyFormat_no_brace template entity h
  refine ⟨hq, search_trace env entity template template hq, ?_⟩
  cases ho : env.llmOracle (llmRequest template sr) with
  | failure => rw [extract_eq_failure env entity template sr template hq ho]
  | success content => rw [extract_eq_success env entity template sr template content hq ho]

/-- Witness for C6 at a concrete brace-free template. -/
theorem C6_witness :
    (∀ c ∈ ("main products of the company" : String).data, c ≠ lbrace ∧ c ≠ rbrace) ∧
    (pyFormat "main products of the company" "Acme" =
      Except.ok "main products of the company" ∧
    (WebSearcher.search envTriv "Acme" "main products of the company").2 =
      [ExtCall.searchCall (searchRequest "main products of the company" envTriv.serpapi_key)] ∧
    (LLMProcessor.extract_information envTriv "Acme" "main products of the company" "text").2 =
      [ExtCall.llmCall (llmRequest "main products of the company" "text")]) :=
  ⟨by decide, C6_theorem envTriv "Acme" "main products of the company" "text" (by decide)⟩

/-- Environment whose search endpoint answers with an empty organic
results list, so every search returns the empty string. -/
def envNoResults : Env :=
  ⟨"", fun _ => .success [], fun _ => .failure⟩

/-- Environment with one search snippet and a failing completion
endpoint. -/
def envLLMFail : Env :=
  ⟨"", fun _ => .success [some "Acme makes widgets."], fun _ => .failure⟩

/-- Environment with one search snippet and a succeeding completion
endpoint whose answer carries surrounding whitespace. -/
def envLLMOk : Env :=
  ⟨"", fun _ => .success [some "data"], fun _ => .success "  widgets  "⟩

/-- C4 (confirmed): when `search` returns the empty string for the i-th
entity, the record appended for it has ExtractedInformation exactly
`"No data found"`, and no completion call is made for that entity (its
loop-body trace has no llmCall, and the whole trace is the concatenation
of the per-entity traces). -/
theorem C4_theorem (env : Env) (entities : List String) (prompt : String) (i : Nat)
    (hi : i < entities.length)
    (hempty : (WebSearcher.search env entities[i] prompt).1 = Except.ok "") :
    ∃ rs : List ResultRecord,
      (DataProcessor.process_entities env entities prompt).1 = Except.ok rs ∧
      rs[i]? = some ⟨entities[i], "No data found"⟩ ∧
      llmCallCount (entityTrace env prompt entities[i]) = 0 ∧
      (DataProcessor.process_entities env entities prompt).2 =
        (entities.map (entityTrace env prompt)).flatten := by
  have hfmt : (pyFormat prompt entities[i]).isOk :=
    format_isOk_of_search_ok env entities[i] prompt "" hempty
  have hok : ∀ x ∈ entities, ((DataProcessor.processEntity env prompt x).1).isOk := by
    intro x _
    exact processEntity_isOk env prompt x
      (by rw [pyFormat_isOk_indep prompt x entities[i]]; exact hfmt)
  obtain ⟨q, hq⟩ := pyFormat_ok_of_isOk hfmt
  rcases hs : WebSearcher.search env entities[i] prompt with ⟨v, tr⟩
  rw [hs] at hempty
  simp at hempty
  subst hempty
  have htr : tr = [ExtCall.searchCall (searchRequest q env.serpapi_key)] := by
    have := search_trace env entities[i] prompt q hq
    rw [hs] at this
    exact this
  have hrec : entityRecord env prompt entities[i] = ⟨entities[i], "No data found"⟩ := by
    simp [entityRecord, processEntity_of_search_empty env prompt entities[i] tr hs]
  refine ⟨entities.map (entityRecord env prompt), ?_, ?_, ?_, ?_⟩
  · rw [process_entities_eq env prompt entities hok]
  · rw [List.getElem?_map, List.getElem?_eq_getElem hi]
    simp [hrec]
  · rw [entityTrace, processEntity_of_search_empty env prompt entities[i] tr hs, htr]
    rfl
  · rw [process_entities_eq env prompt entities hok]

/-- Witness for C4: searching `Globex` finds no results, its record reads
`No data found`, and no completion call is made. -/
theorem C4_witness :
    (0 < (["Globex"] : List String).length) ∧
    ((WebSearcher.search envNoResults (["Globex"] : List String)[0] "q").1 = Except.ok "") ∧
    ∃ rs : List ResultRecord,
      (DataProcessor.process_entities envNoResults ["Globex"] "q").1 = Except.ok rs ∧
      rs[0]? = some ⟨(["Globex"] : List String)[0], "No data found"⟩ ∧
      llmCallCount (entityTrace envNoResults "q" (["Globex"] : List String)[0]) = 0 ∧
      (DataProcessor.process_entities envNoResults ["Globex"] "q").2 =
        ((["Globex"] : List String).map (entityTrace envNoResults "q")).flatten :=
  ⟨by decide, by decide, C4_theorem envNoResults ["Globex"] "q" 0 (by decide) (by decide)⟩

/-- C5 (confirmed): when `search` returns non-empty text for the i-th
entity but the completion call fails, `extract_information` returns `""`
and the record appended for that entity has ExtractedInformation exactly
`""`, not `"No data found"`. -/
theorem C5_theorem (env : Env) (entities : List String) (prompt : String) (i : Nat)
    (q sr : String)
    (hi : i < entities.length)
    (hq : pyFormat prompt entities[i] = Except.ok q)
    (hsr : (WebSearcher.search env entities[i] prompt).1 = Except.ok sr)
    (hne : sr ≠ "")
    (hfail : env.llmOracle (llmRequest q sr) = LLMOutcome.failure) :
    (LLMProcessor.extract_information env entities[i] prompt sr).1 = Except.ok "" ∧
    ∃ rs : List ResultRecord,
      (DataProcessor.process_entities env entities prompt).1 = Except.ok rs ∧
      rs[i]? = some ⟨entities[i], ""⟩ := by
  have hok : ∀ x ∈ entities, ((DataProcessor.processEntity env prompt x).1).isOk := by
    intro x _
    refine processEntity_isOk env prompt x ?_
    rw [pyFormat_isOk_indep prompt x entities[i], hq]
    rfl
  rcases hs : WebSearcher.search env entities[i] prompt with ⟨v, tr⟩
  rw [hs] at hsr
  simp at hsr
  subst hsr
  have hrec : entityRecord env prompt entities[i] = ⟨entities[i], ""⟩ := by
    rw [entityRecord, processEntity_of_search_nonempty env prompt entities[i] sr tr hs hne,
      extract_eq_failure env entities[i] prompt sr q hq hfail]
  refine ⟨by rw [extract_eq_failure env entities[i] prompt sr q hq hfail], ?_⟩
  refine ⟨entities.map (entityRecord env prompt), ?_, ?_⟩
  · rw [process_entities_eq env prompt entities hok]
  · rw [List.getElem?_map, List.getElem?_eq_getElem hi]
    simp [hrec]

/-- Witness for C5: the search for `Acme` finds a snippet, the completion
call fails, and the record carries the empty string. -/
theorem C5_witness :
    (0 < (["Acme"] : List String).length) ∧
    (pyFormat "q" (["Acme"] : List String)[0] = Except.ok "q") ∧
    ((WebSearcher.search envLLMFail (["Acme"] : List String)[0] "q").1 =
      Except.ok "Acme makes widgets.") ∧
    ("Acme makes widgets." ≠ "") ∧
    (envLLMFail.llmOracle (llmRequest "q" "Acme makes widgets.") = LLMOutcome.failure) ∧
    ((LLMProcessor.extract_information envLLMFail (["Acme"] : List String)[0] "q"
        "Acme makes widgets.").1 = Except.ok "" ∧
    ∃ rs : List ResultRecord,
      (DataProcessor.process_entities envLLMFail ["Acme"] "q").1 = Except.ok rs ∧
      rs[0]? = some ⟨(["Acme"] : List String)[0], ""⟩) :=
  ⟨by decide, by decide, by decide, by decide, rfl,
    C5_theorem envLLMFail ["Acme"] "q" 0 "q" "Acme makes widgets."
      (by decide) (by decide) (by decide) (by decide) rfl⟩

/-- C7 (confirmed): a `search` call whose query formats issues exactly one
GET request with parameters `q` (the substituted prompt), the configured
API key, and `num = 5`; and a repeated (entity, template) pair re-issues
the call — the loop trace for `[entity, entity]` is the per-entity trace
twice, each containing exactly one search call. -/
theorem C7_theorem (env : Env) (entity prompt q : String)
    (hq : pyFormat prompt entity = Except.ok q) :
    (WebSearcher.search env entity prompt).2 =
      [ExtCall.searchCall (searchRequest q env.serpapi_key)] ∧
    (searchRequest q env.serpapi_key).q = q ∧
    (searchRequest q env.serpapi_key).api_key = env.serpapi_key ∧
    (searchRequest q env.serpapi_key).num = 5 ∧
    searchCallCount (entityTrace env prompt entity) = 1 ∧
    (DataProcessor.process_entities env [entity, entity] prompt).2 =
      entityTrace env prompt entity ++ entityTrace env prompt entity := by
  refine ⟨search_trace env entity prompt q hq, rfl, rfl, rfl, ?_, ?_⟩
  · rcases entityTrace_structure env prompt entity q hq with h | ⟨sr, _, _, h⟩ <;>
      rw [h] <;> rfl
  · have hok : ∀ x ∈ [entity, entity], ((DataProcessor.processEntity env prompt x).1).isOk := by
      intro x hx
      refine processEntity_isOk env prompt x ?_
      have hx2 : x = entity := by simpa using hx
      rw [hx2, hq]
      rfl
    rw [process_entities_eq env prompt [entity, entity] hok]
    simp

/-- Witness for C7 at a concrete input. -/
theorem C7_witness :
    (pyFormat "q" "Acme" = Except.ok "q") ∧
    ((WebSearcher.search envTriv "Acme" "q").2 =
      [ExtCall.searchCall (searchRequest "q" envTriv.serpapi_key)] ∧
    (searchRequest "q" envTriv.serpapi_key).q = "q" ∧
    (searchRequest "q" envTriv.serpapi_key).api_key = envTriv.serpapi_key ∧
    (searchRequest "q" envTriv.serpapi_key).num = 5 ∧
    searchCallCount (entityTrace envTriv "q" "Acme") = 1 ∧
    (DataProcessor.process_entities envTriv ["Acme", "Acme"] "q").2 =
      entityTrace envTriv "q" "Acme" ++ entityTrace envTriv "q" "Acme") :=
  ⟨by decide, C7_theorem envTriv "Acme" "q" "q" (by decide)⟩

/-- C8 (confirmed): an `extract_information` call whose template formats
issues exactly one completion request consisting of the fixed system
message and the user message embedding the substituted prompt and the raw
search text, with `model = "mixtral-8x7b-32768"`, `max_tokens = 150` and
`temperature = 0.5`; on success it returns the whitespace-trimmed content
of the first choice. -/
theorem C8_theorem (env : Env) (entity prompt q search_results : String)
    (hq : pyFormat prompt entity = Except.ok q) :
    (LLMProcessor.extract_information env entity prompt search_results).2 =
      [ExtCall.llmCall (llmRequest q search_results)] ∧
    (llmRequest q search_results).model = "mixtral-8x7b-32768" ∧
    (llmRequest q search_results).messages =
      [systemMessage, userMessage q search_results] ∧
    (llmRequest q search_results).max_tokens = 150 ∧
    (llmRequest q search_results).temperature = 0.5 ∧
    ∀ content, env.llmOracle (llmRequest q search_results) = LLMOutcome.success content →
      (LLMProcessor.extract_information env entity prompt search_results).1 =
        Except.ok content.trim := by
  refine ⟨?_, rfl, rfl, rfl, rfl, ?_⟩
  · cases ho : env.llmOracle (llmRequest q search_results) with
    | failure => rw [extract_eq_failure env entity prompt search_results q hq ho]
    | success content =>
      rw [extract_eq_success env entity prompt search_results q content hq ho]
  · intro content ho
    rw [extract_eq_success env entity prompt search_results q content hq ho]

/-- Witness for C8: one completion request with the fixed parameters, and
the trimmed content returned on success. -/
theorem C8_witness :
    (pyFormat "q" "Acme" = Except.ok "q") ∧
    ((LLMProcessor.extract_information envLLMOk "Acme" "q" "data").2 =
      [ExtCall.llmCall (llmRequest "q" "data")] ∧
    (llmRequest "q" "data").model = "mixtral-8x7b-32768" ∧
    (llmRequest "q" "data").messages = [systemMessage, userMessage "q" "data"] ∧
    (llmRequest "q" "data").max_tokens = 150 ∧
    (llmRequest "q" "data").temperature = 0.5 ∧
    ∀ content, envLLMOk.llmOracle (llmRequest "q" "data") = LLMOutcome.success content →
      (LLMProcessor.extract_information envLLMOk "Acme" "q" "data").1 =
        Except.ok content.trim) :=
  ⟨by decide, C8_theorem envLLMOk "Acme" "q" "q" "data" (by decide)⟩

/-- Environment for C9: every organic result lacks a snippet field. -/
def envC9 : Env :=
  ⟨"", fun _ => .success [none, none], fun _ => .failure⟩

/-- C9 (confirmed): on a successful search response whose `n ≥ 2` organic
results all lack a snippet field, `search` returns the non-empty string of
`n - 1` newline characters, which `process_entities` treats as found data
and passes to LLM extraction (exactly one completion call) instead of
recording `No data found`. -/
theorem C9_theorem (env : Env) (entity prompt q : String) (n : Nat)
    (hq : pyFormat prompt entity = Except.ok q)
    (hn : 2 ≤ n)
    (ho : env.searchOracle (searchRequest q env.serpapi_key) =
      SearchOutcome.success (List.replicate n none)) :
    (WebSearcher.search env entity prompt).1 =
      Except.ok (String.mk (List.replicate (n - 1) (Char.ofNat 10))) ∧
    String.mk (List.replicate (n - 1) (Char.ofNat 10)) ≠ "" ∧
    llmCallCount (entityTrace env prompt entity) = 1 := by
  have hsr := search_eq_success env entity prompt q (List.replicate n none) hq ho
  rw [List.map_replicate] at hsr
  simp only [Option.getD_none] at hsr
  rw [intercalate_replicate_empty n (by omega)] at hsr
  have hne : String.mk (List.replicate (n - 1) (Char.ofNat 10)) ≠ "" := by
    intro hc
    have hd := congrArg String.data hc
    simp at hd
    omega
  refine ⟨by rw [hsr], hne, ?_⟩
  rw [entityTrace, processEntity_of_search_nonempty env prompt entity _ _ hsr hne]
  cases hl : env.llmOracle
      (llmRequest q (String.mk (List.replicate (n - 1) (Char.ofNat 10)))) with
  | failure => rw [extract_eq_failure env entity prompt _ q hq hl]; rfl
  | success content => rw [extract_eq_success env entity prompt _ q content hq hl]; rfl

/-- Witness for C9 with two snippet-less organic results: the search text
is a single newline, non-empty, and one completion call is made. -/
theorem C9_witness :
    (pyFormat "q" "Acme" = Except.ok "q") ∧
    (2 ≤ 2) ∧
    (envC9.searchOracle (searchRequest "q" envC9.serpapi_key) =
      SearchOutcome.success (List.replicate 2 none)) ∧
    ((WebSearcher.search envC9 "Acme" "q").1 =
      Except.ok (String.mk (List.replicate (2 - 1) (Char.ofNat 10))) ∧
    String.mk (List.replicate (2 - 1) (Char.ofNat 10)) ≠ "" ∧
    llmCallCount (entityTrace envC9 "q" "Acme") = 1) :=
  ⟨by decide, by decide, rfl, C9_theorem envC9 "Acme" "q" "q" 2 (by decide) (by decide) rfl⟩

/-- C10 (confirmed): the loop trace is the concatenation of the per-entity
traces; each per-entity trace has at most two external calls; and it
contains a completion call only when `search` returned non-empty text for
that entity, the completion request being built from the same entity and
prompt template and from exactly the string `search` returned. -/
theorem C10_theorem (env : Env) (entities : List String) (prompt : String)
    (h : (pyFormat prompt "x").isOk) :
    (DataProcessor.process_entities env entities prompt).2 =
      (entities.map (entityTrace env prompt)).flatten ∧
    ∀ e : String,
      (entityTrace env prompt e).length ≤ 2 ∧
      ∀ req : LLMRequest, ExtCall.llmCall req ∈ entityTrace env prompt e →
        ∃ q sr, pyFormat prompt e = Except.ok q ∧
          (WebSearcher.search env e prompt).1 = Except.ok sr ∧ sr ≠ "" ∧
          req = llmRequest q sr := by
  constructor
  · have hok : ∀ x ∈ entities, ((DataProcessor.processEntity env prompt x).1).isOk := by
      intro x _
      exact processEntity_isOk env prompt x
        (by rw [pyFormat_isOk_indep prompt x "x"]; exact h)
    rw [process_entities_eq env prompt entities hok]
  · intro e
    have hfmt : (pyFormat prompt e).isOk := by
      rw [pyFormat_isOk_indep prompt e "x"]; exact h
    obtain ⟨q, hq⟩ := pyFormat_ok_of_isOk hfmt
    rcases entityTrace_structure env prompt e q hq with htr | ⟨sr, hsr, hne, htr⟩
    · refine ⟨by rw [htr]; simp, ?_⟩
      intro req hmem
      rw [htr] at hmem
      simp at hmem
    · refine ⟨by rw [htr]; simp, ?_⟩
      intro req hmem
      rw [htr] at hmem
      simp at hmem
      exact ⟨q, sr, hq, hsr, hne, hmem⟩

/-- Witness for C10 in an environment where the completion endpoint
succeeds. -/
theorem C10_witness :
    ((pyFormat "q" "x").isOk = true) ∧
    ((DataProcessor.process_entities envLLMOk ["a"] "q").2 =
      ((["a"] : List String).map (entityTrace envLLMOk "q")).flatten ∧
    ∀ e : String,
      (entityTrace envLLMOk "q" e).length ≤ 2 ∧
      ∀ req : LLMRequest, ExtCall.llmCall req ∈ entityTrace envLLMOk "q" e →
        ∃ q sr, pyFormat "q" e = Except.ok q ∧
          (WebSearcher.search envLLMOk e "q").1 = Except.ok sr ∧ sr ≠ "" ∧
          req = llmRequest q sr) :=
  ⟨by decide, C10_theorem envLLMOk ["a"] "q" (by decide)⟩

example : pyFormat "What is \x7bentity\x7d?" "Acme" = .ok "What is Acme?" := by decide

example : pyFormat "\x7bx\x7d" "Acme" = .error (.keyError "x") := by decide

example : pyFormat "\x7d" "Acme" = .error .valueError := by decide

example : pyFormat "\x7b\x7b\x7d\x7d" "Acme" = .ok "\x7b\x7d" := by decide

example : pyFormat "\x7b\x7d" "Acme" = .error .indexError := by decide

example : pyFormat "plain" "Acme" = .ok "plain" := by decide

example :
    (WebSearcher.search ⟨"k", fun _ => .success [some "a", none, some "b"], fun _ => .failure⟩
      "e" "q").1 = .ok "a\n\nb" := by decide

example :
    (DataProcessor.process_entities envTriv ["a"] "q").1 = .ok [⟨"a", "No data found"⟩] := by
  decide
